import Mathlib

/-!
Verification model of the web-agent core (`agent_logic.py`).

Python strings are modelled as `List Char` (`PyStr`).  Decoded JSON
documents are modelled by the inductive type `Json`; JSON numbers are
restricted to integers (the coordinate pipeline only ever multiplies and
divides them).  Python's float arithmetic
`int((n / 1000) * screenDim)` is modelled in the parser as exact rational
arithmetic truncated toward zero, `Int.tdiv (n * screenDim) 1000`
(`pixelOf`); the bit-accurate IEEE-754 double semantics of the same
expression is modelled separately (`pixelFloat`) and used to settle the
conversion claim, since the two differ on some inputs.
Python exceptions are modelled with `Except PyError`: the source catches
only `json.JSONDecodeError` and `KeyError`, so `AttributeError` and
`TypeError` raised inside the guarded block propagate to the caller and
appear as `Except.error` values.
-/

/-- Model of a Python `str`: a list of characters. -/
abbrev PyStr := List Char

/-- Whitespace as recognised by `str.strip` (restricted to the ASCII
whitespace characters relevant here). -/
def isPySpace (c : Char) : Bool :=
  c = ' ' || c = '\t' || c = '\n' || c = '\r'

/-- Remove trailing whitespace, as Python `str.rstrip`. -/
def rstrip : PyStr → PyStr
  | [] => []
  | c :: cs =>
    match rstrip cs with
    | [] => if isPySpace c then [] else [c]
    | r => c :: r

/-- Python `str.strip`: drop leading and trailing whitespace. -/
def pyStrip (s : PyStr) : PyStr :=
  rstrip (s.dropWhile isPySpace)

/-- The recognised code-fence opening, `response_text.strip().startswith("..." )`
checks for this seven-character prefix. -/
def fenceChars : PyStr := "```json".toList

/-- Fence detection: `response_text.strip().startswith("```json")`. -/
def isFenced (t : PyStr) : Bool :=
  fenceChars.isPrefixOf t

/-- Model of the fence-stripping preamble shared by
`parse_and_process_response` and `decide_next_action`:
`if response_text.strip().startswith("```json"): response_text = response_text.strip()[7:-3].strip()`.
The Python slice `t[7:-3]` is `(t.drop 7).take (t.length - 10)` (empty when
the stripped text is shorter than ten characters, as in Python).  When the
fence test fails the ORIGINAL text is kept, not the stripped one. -/
def stripFence (s : PyStr) : PyStr :=
  if isFenced (pyStrip s) then
    pyStrip (((pyStrip s).drop 7).take ((pyStrip s).length - 10))
  else s

/-- Model of a decoded JSON document (Python value produced by
`json.loads`).  Numbers are restricted to integers; the model rejects
fractional and exponent syntax. -/
inductive Json where
  | null : Json
  | bool (b : Bool) : Json
  | num (n : Int) : Json
  | str (s : PyStr) : Json
  | arr (items : List Json) : Json
  | obj (kvs : List (PyStr × Json)) : Json

/-- Uncaught Python exceptions that can escape the modelled functions:
the source catches only `json.JSONDecodeError` and `KeyError`. -/
inductive PyError where
  | attributeError : PyError
  | typeError : PyError
deriving DecidableEq

/-- Python `dict.get k` (default `None`): first entry with the given key.
Objects built by the parser have unique keys, as Python dicts do. -/
def dictGetOpt (kvs : List (PyStr × Json)) (k : PyStr) : Option Json :=
  match kvs with
  | [] => none
  | (k', v) :: rest => if k' = k then some v else dictGetOpt rest k

/-- Python `d[k] = v`: replace the value at an existing key (keeping its
position) or append a fresh entry at the end, as Python dicts do. -/
def dictSet (kvs : List (PyStr × Json)) (k : PyStr) (v : Json) :
    List (PyStr × Json) :=
  match kvs with
  | [] => [(k, v)]
  | (k', v') :: rest =>
    if k' = k then (k', v) :: rest else (k', v') :: dictSet rest k v

/-- Remove the entry with the given key (first occurrence). -/
def eraseKey (k : PyStr) (kvs : List (PyStr × Json)) : List (PyStr × Json) :=
  match kvs with
  | [] => []
  | (k', v) :: rest => if k' = k then rest else (k', v) :: eraseKey k rest

/-- Combine a leading object entry with the dict built from the remaining
entries, reproducing Python's duplicate-key semantics: the first
occurrence fixes the position, the last occurrence fixes the value. -/
def consKey (k : PyStr) (v : Json) (kvs : List (PyStr × Json)) :
    List (PyStr × Json) :=
  match dictGetOpt kvs k with
  | some w => (k, w) :: eraseKey k kvs
  | none => (k, v) :: kvs

/-- Python truthiness of a decoded JSON value (`if not x`). -/
def pyTruthy : Json → Bool
  | .null => false
  | .bool b => b
  | .num n => n != 0
  | .str s => !s.isEmpty
  | .arr l => !l.isEmpty
  | .obj l => !l.isEmpty

/-- Python `len(x)`: defined for `str`, `list` and `dict`; raises
`TypeError` (here: `none`) otherwise. -/
def pyLen : Json → Option Nat
  | .str s => some s.length
  | .arr l => some l.length
  | .obj l => some l.length
  | _ => none

/-- Python iteration `for x in v`: lists yield their items, strings yield
their characters (as one-character strings), dicts yield their keys;
other values raise `TypeError` (here: `none`). -/
def pyIter : Json → Option (List Json)
  | .arr l => some l
  | .str s => some (s.map (fun c => .str [c]))
  | .obj kvs => some (kvs.map (fun p => .str p.1))
  | _ => none

/-- Numeric view of a Python value for arithmetic: ints are themselves and
bools coerce (`True` is `1`); anything else raises `TypeError` under
division. -/
def asNum : Json → Option Int
  | .num n => some n
  | .bool b => some (if b then 1 else 0)
  | _ => none

/-- Skip leading JSON whitespace. -/
def skipWs : PyStr → PyStr
  | [] => []
  | c :: cs => if isPySpace c then skipWs cs else c :: cs

/-- Longest leading run of decimal digits. -/
def takeDigits : PyStr → (List Char × PyStr)
  | [] => ([], [])
  | c :: cs =>
    if c.isDigit then
      let (ds, rest) := takeDigits cs
      (c :: ds, rest)
    else ([], c :: cs)

/-- Decimal digits to a natural number. -/
def digitsToNat (ds : List Char) : Nat :=
  ds.foldl (fun acc c => acc * 10 + (c.toNat - 48)) 0

/-- A quote character, used to re-enter string-parsing mode below. -/
def quoteChar : Char := '"'

/-- A left-brace and left-bracket character (written via codes so that the
parser can re-enter object and array mode on a synthesised head). -/
def lbraceChar : Char := Char.ofNat 123

/-- Right brace. -/
def rbraceChar : Char := Char.ofNat 125

/-- JSON string escapes supported by the model: the self-escapes, forward
slash, and the three whitespace mnemonics. -/
def escChar (c : Char) : Option Char :=
  if c = quoteChar then some quoteChar
  else if c = '\\' then some '\\'
  else if c = '/' then some '/'
  else if c = 'n' then some '\n'
  else if c = 't' then some '\t'
  else if c = 'r' then some '\r'
  else none

/-- Fuel-driven recursive-descent parser for the JSON fragment used by the
agent, modelling `json.loads`.  Returns the parsed value and the unread
remainder.  Array, object and string continuations are parsed by
re-invoking the parser on the input with the opening delimiter pushed
back, so the recursion is structural in the fuel.  A number directly
followed by a fraction or exponent marker is rejected (model restriction
to integers), as is a leading-zero literal, mirroring `json.loads` on the
integer fragment. -/
def parseV : Nat → PyStr → Option (Json × PyStr)
  | 0, _ => none
  | fuel + 1, input =>
    match skipWs input with
    | [] => none
    | c :: cs =>
      if c = quoteChar then
        -- string: read one unit, recurse on a re-quoted remainder
        match cs with
        | [] => none
        | d :: ds =>
          if d = quoteChar then some (.str [], ds)
          else if d = '\\' then
            match ds with
            | [] => none
            | e :: es =>
              match escChar e with
              | none => none
              | some ec =>
                match parseV fuel (quoteChar :: es) with
                | some (.str s, rest) => some (.str (ec :: s), rest)
                | _ => none
          else
            match parseV fuel (quoteChar :: ds) with
            | some (.str s, rest) => some (.str (d :: s), rest)
            | _ => none
      else if c = '[' then
        match skipWs cs with
        | ']' :: rest => some (.arr [], rest)
        | body =>
          match parseV fuel body with
          | none => none
          | some (v, rest) =>
            match skipWs rest with
            | ']' :: rest' => some (.arr [v], rest')
            | ',' :: rest' =>
              match skipWs rest' with
              | ']' :: _ => none      -- trailing comma rejected
              | _ =>
                match parseV fuel ('[' :: rest') with
                | some (.arr vs, rest'') => some (.arr (v :: vs), rest'')
                | _ => none
            | _ => none
      else if c = lbraceChar then
        match skipWs cs with
        | d :: rest =>
          if d = rbraceChar then some (.obj [], rest)
          else
            match parseV fuel (d :: rest) with
            | some (.str k, afterKey) =>
              match skipWs afterKey with
              | ':' :: afterColon =>
                match parseV fuel afterColon with
                | none => none
                | some (v, afterVal) =>
                  match skipWs afterVal with
                  | ',' :: rest' =>
                    match skipWs rest' with
                    | e :: _ =>
                      if e = rbraceChar then none  -- trailing comma rejected
                      else
                        match parseV fuel (lbraceChar :: rest') with
                        | some (.obj kvs, rest'') =>
                          some (.obj (consKey k v kvs), rest'')
                        | _ => none
                    | [] => none
                  | e :: rest' =>
                    if e = rbraceChar then some (.obj [(k, v)], rest')
                    else none
                  | [] => none
              | _ => none
            | _ => none
        | [] => none
      else if c = 'n' then
        match cs with
        | 'u' :: 'l' :: 'l' :: rest => some (.null, rest)
        | _ => none
      else if c = 't' then
        match cs with
        | 'r' :: 'u' :: 'e' :: rest => some (.bool true, rest)
        | _ => none
      else if c = 'f' then
        match cs with
        | 'a' :: 'l' :: 's' :: 'e' :: rest => some (.bool false, rest)
        | _ => none
      else if c = '-' then
        match takeDigits cs with
        | ([], _) => none
        | (d :: ds, rest) =>
          if d = '0' && ds ≠ [] then none
          else
            match rest with
            | r :: _ => if r = '.' || r = 'e' || r = 'E' then none
                        else some (.num (-(digitsToNat (d :: ds) : Int)), rest)
            | [] => some (.num (-(digitsToNat (d :: ds) : Int)), rest)
      else if c.isDigit then
        match takeDigits (c :: cs) with
        | ([], _) => none
        | (d :: ds, rest) =>
          if d = '0' && ds ≠ [] then none
          else
            match rest with
            | r :: _ => if r = '.' || r = 'e' || r = 'E' then none
                        else some (.num (digitsToNat (d :: ds) : Int), rest)
            | [] => some (.num (digitsToNat (d :: ds) : Int), rest)
      else none

/-- Model of `json.loads`: parse a complete document, allowing surrounding
whitespace, rejecting trailing garbage.  `none` models
`json.JSONDecodeError`. -/
def jsonLoads (s : PyStr) : Option Json :=
  match parseV (4 * s.length + 16) s with
  | some (v, rest) => if (skipWs rest).isEmpty then some v else none
  | none => none

/-- Key constant: "elements". -/
def keyElements : PyStr := "elements".toList

/-- Key constant: "box_2d". -/
def keyBox : PyStr := "box_2d".toList

/-- Key constant: "pixel_box". -/
def keyPixel : PyStr := "pixel_box".toList

/-- Key constant: "label". -/
def keyLabel : PyStr := "label".toList

/-- Key constant: "type". -/
def keyType : PyStr := "type".toList

/-- Key constant: "thought". -/
def keyThought : PyStr := "thought".toList

/-- Key constant: "chosen_element_label". -/
def keyChosen : PyStr := "chosen_element_label".toList

/-- Coordinate conversion from the source:
`pixel = int((norm / 1000) * screen_dim)`.
Python float arithmetic is modelled as exact rational arithmetic, so the
value is `(norm * screen_dim) / 1000` truncated toward zero (`int`
truncates toward zero). -/
def pixelOf (norm dim : Int) : Int :=
  Int.tdiv (norm * dim) 1000

/-- The body of the per-element loop of `parse_and_process_response`
(lines 103-113): fetch `box_2d` with `element.get` (raising
`AttributeError` on a non-dict record), test `if box and len(box) == 4`,
unpack the four components, convert, and assign `element["pixel_box"]`.
Unpacking a four-element value whose components are not numbers (or a
four-character string / four-key dict) reaches the division and raises
`TypeError`; `len` of an unsized value raises `TypeError`. -/
def processElement (w h : Int) (el : Json) : Except PyError Json :=
  match el with
  | .obj kvs =>
    match dictGetOpt kvs keyBox with
    | none => .ok el
    | some box =>
      if pyTruthy box then
        match pyLen box with
        | none => .error .typeError
        | some n =>
          if n = 4 then
            match box with
            | .arr [a, b, c, d] =>
              match asNum a, asNum b, asNum c, asNum d with
              | some x1, some y1, some x2, some y2 =>
                .ok (.obj (dictSet kvs keyPixel
                  (.arr [.num (pixelOf x1 w), .num (pixelOf y1 h),
                         .num (pixelOf x2 w), .num (pixelOf y2 h)])))
              | _, _, _, _ => .error .typeError
            | _ => .error .typeError
          else .ok el
      else .ok el
  | _ => .error .attributeError

/-- The `for element in elements` loop, stopping at the first uncaught
exception, preserving order. -/
def processElements (w h : Int) : List Json → Except PyError (List Json)
  | [] => .ok []
  | el :: rest =>
    match processElement w h el with
    | .error e => .error e
    | .ok el' =>
      match processElements w h rest with
      | .error e => .error e
      | .ok rest' => .ok (el' :: rest')

/-- Model of `parse_and_process_response(response_text, screen_size)`
(lines 88-119).  The `try` block catches only `json.JSONDecodeError` and
`KeyError`; decode failure therefore returns an empty list, while an
`AttributeError` (non-dict top level, non-dict record) or `TypeError`
(non-iterable `elements` value, non-numeric box component) escapes to the
caller.  When `elements` is a string or dict, the loop iterates over its
characters or keys, each of which is a `str` and raises `AttributeError`
at `element.get`, unless it is empty, in which case the (non-list) value
is returned unchanged. -/
def parse_and_process_response (responseText : PyStr) (screenSize : Int × Int) :
    Except PyError Json :=
  match jsonLoads (stripFence responseText) with
  | none => .ok (.arr [])
  | some data =>
    match data with
    | .obj kvs =>
      match (dictGetOpt kvs keyElements).getD (.arr []) with
      | .arr els =>
        match processElements screenSize.1 screenSize.2 els with
        | .error e => .error e
        | .ok els' => .ok (.arr els')
      | .str [] => .ok (.str [])
      | .str (_ :: _) => .error .attributeError
      | .obj [] => .ok (.obj [])
      | .obj (_ :: _) => .error .attributeError
      | _ => .error .typeError
    | _ => .error .attributeError

/-- Fuel-driven model of Python `==` on decoded values: `None == None`
holds, booleans compare equal to the integers 0 and 1, strings and lists
compare structurally, dicts compare by key set and values (keys in the
model are unique, as in Python dicts).  The fuel is instantiated with a
structural size bound of the left operand, which the left-driven
recursion never exhausts. -/
def pyEqFuel : Nat → Json → Json → Bool
  | 0, _, _ => false
  | fuel + 1, a, b =>
    match a, b with
    | .null, .null => true
    | .bool x, .bool y => x == y
    | .bool x, .num m => (if x then (1 : Int) else 0) == m
    | .num n, .bool y => n == (if y then (1 : Int) else 0)
    | .num n, .num m => n == m
    | .str s, .str t => s == t
    | .arr xs, .arr ys =>
      (match xs, ys with
       | [], [] => true
       | x :: xs', y :: ys' => pyEqFuel fuel x y && pyEqFuel fuel (.arr xs') (.arr ys')
       | _, _ => false)
    | .obj kvs, .obj kvs' =>
      (match kvs with
       | [] => kvs'.isEmpty
       | (k, v) :: rest =>
         (match dictGetOpt kvs' k with
          | some w => pyEqFuel fuel v w
          | none => false)
         && pyEqFuel fuel (.obj rest) (.obj (eraseKey k kvs')))
    | _, _ => false

/-- Structural size used to provision `pyEqFuel`. -/
def jsonFuel : Json → Nat
  | .arr xs => 1 + jsonListFuel xs
  | .obj kvs => 1 + jsonObjFuel kvs
  | _ => 1
where
  jsonListFuel : List Json → Nat
    | [] => 1
    | x :: xs => 1 + jsonFuel x + jsonListFuel xs
  jsonObjFuel : List (PyStr × Json) → Nat
    | [] => 1
    | (_, v) :: kvs => 1 + jsonFuel v + jsonObjFuel kvs

/-- Python `==` on decoded values. -/
def pyEq (a b : Json) : Bool :=
  pyEqFuel (jsonFuel a) a b

/-- Python `==` lifted to the result of `dict.get`
(`element.get("label") == chosen_label`): a missing key yields Python
`None`, which is exactly the decoded JSON `null`, so both encodings are
collapsed before comparing (`None == None` holds). -/
def pyEqOpt (a b : Option Json) : Bool :=
  pyEq (a.getD .null) (b.getD .null)

/-- The lookup loop of `decide_next_action` (lines 227-229): return the
first candidate whose `label` field compares `==` to the chosen label;
`element.get` on a non-dict candidate raises `AttributeError`. -/
def findChosenList (els : List Json) (chosen : Option Json) :
    Except PyError (Option Json) :=
  match els with
  | [] => .ok none
  | el :: rest =>
    match el with
    | .obj kvs =>
      if pyEqOpt (dictGetOpt kvs keyLabel) chosen then .ok (some el)
      else findChosenList rest chosen
    | _ => .error .attributeError

/-- The reason string returned on an empty decision: "Objective achieved.". -/
def achievedMsg : Json := .str "Objective achieved.".toList

/-- The reason string returned when the chosen label matches no candidate:
"Could not find the chosen element.". -/
def notFoundMsg : Json := .str "Could not find the chosen element.".toList

/-- Model of `decide_next_action(self, interactive_elements)` (lines
175-236), abstracting the model call: `responseText` is the text returned
by `ask_gemini_text_only` (`none` when that call failed).  The result
models the Python pair `(chosen_element, thought)`: the second component
is `none` for Python `None` and `some` of the decoded/literal value
otherwise.  `if not response_text` also treats an empty response string as
no response.  The `try` block catches only `json.JSONDecodeError` and
`KeyError`, so a truthy non-dict decode (`decision_data.get`) raises
`AttributeError` and a non-iterable candidate collection raises
`TypeError`, both escaping to the caller. -/
def decide_next_action (responseText : Option PyStr)
    (interactiveElements : Json) :
    Except PyError (Option Json × Option Json) :=
  match responseText with
  | none => .ok (none, none)
  | some t =>
    if t.isEmpty then .ok (none, none)
    else
      match jsonLoads (stripFence t) with
      | none => .ok (none, none)
      | some d =>
        if pyTruthy d then
          match d with
          | .obj kvs =>
            match pyIter interactiveElements with
            | none => .error .typeError
            | some els =>
              match findChosenList els (dictGetOpt kvs keyChosen) with
              | .error e => .error e
              | .ok (some el) => .ok (some el, dictGetOpt kvs keyThought)
              | .ok none => .ok (none, some notFoundMsg)
          | _ => .error .attributeError
        else .ok (none, some achievedMsg)

/-- Single-quote character used by Python `repr`. -/
def squote : Char := Char.ofNat 39

/-- Rendering of a decoded value inside an f-string, modelling Python
`str()` / nested `repr()` on the JSON fragment (string escaping inside
`repr` is not modelled; no claim depends on it). -/
def pyReprFuel : Nat → Json → PyStr
  | 0, _ => []
  | fuel + 1, v =>
    match v with
    | .null => "None".toList
    | .bool b => (if b then "True" else "False").toList
    | .num n => (toString n).toList
    | .str s => squote :: s ++ [squote]
    | .arr xs =>
      '[' :: (match xs with
        | [] => "]".toList
        | x :: xs' =>
          pyReprFuel fuel x ++
          (xs'.foldr (fun y acc => ", ".toList ++ pyReprFuel fuel y ++ acc) "]".toList))
    | .obj kvs =>
      lbraceChar :: (match kvs with
        | [] => [rbraceChar]
        | (k, v') :: kvs' =>
          squote :: k ++ "': ".toList ++ pyReprFuel fuel v' ++
          (kvs'.foldr (fun p acc => ", '".toList ++ p.1 ++ "': ".toList ++ pyReprFuel fuel p.2 ++ acc)
            [rbraceChar]))

/-- Python `str(x)` of an optional decoded value: `None` prints as "None",
a top-level string prints without quotes, other values by `repr`. -/
def pyStrOf : Option Json → PyStr
  | none => "None".toList
  | some (.str s) => s
  | some v => pyReprFuel (jsonFuel v) v

/-- The structured history entry appended by `run` for a successful
action (lines 294-304): iteration index, the decision's thought, and
"Typing 'hello world' into '...'." when the chosen element's `type` is
"input", otherwise "Clicking '...'.".  The chosen element is always a
dict here (a non-dict candidate would already have raised inside
`decide_next_action`). -/
def historyEntry (i : Nat) (thought : Option Json) (el : Json) : PyStr :=
  let base := ("Iteration " ++ toString (i + 1) ++ ": \nThought: ").toList
    ++ pyStrOf thought ++ "\nAction: ".toList
  match el with
  | .obj kvs =>
    if pyEqOpt (dictGetOpt kvs keyType) (some (.str "input".toList)) then
      base ++ "Typing 'hello world' into '".toList
        ++ pyStrOf (dictGetOpt kvs keyLabel) ++ "'.".toList
    else
      base ++ "Clicking '".toList ++ pyStrOf (dictGetOpt kvs keyLabel) ++ "'.".toList
  | _ => base

/-- The objective record appended at the start of `run` (line 247):
f"User's objective: [user_prompt]". -/
def objectiveEntry (userPrompt : PyStr) : PyStr :=
  "User's objective: ".toList ++ userPrompt

/-- The external world seen by one run of the agent loop: whether the
screenshot conversion yields an image part, the discovery-model response,
the decision-model response (each per iteration index), and the screen
size.  The real responses may depend on the prompt (hence on history),
but history is a function of the iteration index for a fixed run, so
indexing by iteration loses no behaviour. -/
structure Env where
  imageOk : Nat → Bool
  discover : Nat → Option PyStr
  decision : Nat → Option PyStr
  screenW : Int
  screenH : Int

/-- The distinct ways `run` can end, one per `return`/fall-through site of
the source (lines 257-314): the reported causes are the printed messages;
`uncaught` models an exception escaping `run`. -/
inductive RunOutcome where
  | screenshotFailure : RunOutcome   -- "Agent run failed: Could not prepare screenshot."
  | noResponse : RunOutcome          -- "Did not receive a response from Gemini. Aborting."
  | noElements : RunOutcome          -- "Could not identify any interactive elements ..."
  | noDecision : RunOutcome          -- "Gemini could not decide on an action. Ending run."
  | maxIterations : RunOutcome       -- "Maximum iterations reached. Ending agent run."
  | uncaught (e : PyError) : RunOutcome
deriving DecidableEq

/-- One iteration of the `for i in range(self.max_iterations)` body
(lines 250-312), up to but excluding the history append: `error` is an
early exit of `run` with the given outcome, `ok` carries the history
entry appended on the successful `Acting` branch.  The control flow never
reads the history (history only feeds prompts, which are abstracted into
`Env`), so the entry to append fully describes the iteration. -/
def stepRes (env : Env) (i : Nat) : Except RunOutcome PyStr :=
  if env.imageOk i then
    match env.discover i with
    | none => .error .noResponse
    | some r =>
      if r.isEmpty then .error .noResponse
      else
        match parse_and_process_response r (env.screenW, env.screenH) with
        | .error e => .error (.uncaught e)
        | .ok elements =>
          if pyTruthy elements then
            match decide_next_action (env.decision i) elements with
            | .error e => .error (.uncaught e)
            | .ok (some el, thought) =>
              if pyTruthy el then .ok (historyEntry i thought el)
              else .error .noDecision
            | .ok (none, _) => .error .noDecision
          else .error .noElements
  else .error .screenshotFailure

/-- The iteration loop of `run`: `fuel` is the number of remaining
iterations, `i` the current index, `h` the history.  Histories are only
ever appended to, exactly once per successful `Acting` transition. -/
def runFrom (env : Env) : Nat → Nat → List PyStr → RunOutcome × List PyStr
  | 0, _, h => (.maxIterations, h)
  | fuel + 1, i, h =>
    match stepRes env i with
    | .error o => (o, h)
    | .ok entry => runFrom env fuel (i + 1) (h ++ [entry])

/-- Model of `run(self, user_prompt)` (lines 238-314): record the
objective as history entry 0, then iterate up to `maxIterations` times
(the source initialises `self.max_iterations = 10`).  Returns the
terminal outcome and the final history. -/
def run (env : Env) (maxIterations : Nat) (userPrompt : PyStr) :
    RunOutcome × List PyStr :=
  runFrom env maxIterations 0 [objectiveEntry userPrompt]

/-- Normalisation step for the IEEE-754 double model: scale the positive
rational `p / q` by a power of two into the mantissa window
`[2^52, 2^53)`, returning the scaled fraction and the binary exponent.
The fuel bounds the shift count (400 covers every magnitude reachable in
this program). -/
def normLoop : Nat → Nat → Nat → Int → Nat × Nat × Int
  | 0, p, q, e => (p, q, e)
  | fuel + 1, p, q, e =>
    if p < 2 ^ 52 * q then normLoop fuel (2 * p) q (e - 1)
    else if 2 ^ 53 * q ≤ p then normLoop fuel p (2 * q) (e + 1)
    else (p, q, e)

/-- Round the nonnegative rational `p / q` to the nearest IEEE-754 double
(53-bit mantissa, round-half-to-even), returned as mantissa and binary
exponent so that the value is `m * 2 ^ e`.  Subnormals and overflow are
outside the magnitudes this program produces and are not modelled. -/
def floatOfRatio (p q : Nat) : Nat × Int :=
  if p = 0 then (0, 0)
  else
    match normLoop 400 p q 0 with
    | (p', q', e) =>
      let m0 := p' / q'
      let r := p' % q'
      if 2 * r < q' then (m0, e)
      else if q' < 2 * r then (m0 + 1, e)
      else if m0 % 2 = 0 then (m0, e) else (m0 + 1, e)

/-- Bit-accurate model of the source's conversion
`int((norm / 1000) * screen_dim)` for a nonnegative normalized coordinate
and screen dimension, following CPython exactly: `norm / 1000` is the
correctly rounded double quotient, the multiplication by the (exactly
representable) dimension is a correctly rounded double product, and
`int` truncates.  This is the semantics the interpreter actually runs,
whereas `pixelOf` is its exact-rational idealisation. -/
def pixelFloat (n w : Nat) : Nat :=
  match floatOfRatio n 1000 with
  | (m1, e1) =>
    match (if 0 ≤ e1 then floatOfRatio (m1 * w * 2 ^ e1.toNat) 1
           else floatOfRatio (m1 * w) (2 ^ (-e1).toNat)) with
    | (m2, e2) => if 0 ≤ e2 then m2 * 2 ^ e2.toNat else m2 / 2 ^ (-e2).toNat

/-- The canonical markdown wrapping of a response text in the recognised
code fence. -/
def fenceWrap (t : PyStr) : PyStr :=
  "```json\n".toList ++ t ++ "\n```".toList

/-- The number of successful `Acting` iterations the loop performs when
started at index `i` with `fuel` remaining iterations. -/
def actingCount (env : Env) : Nat → Nat → Nat
  | 0, _ => 0
  | fuel + 1, i =>
    match stepRes env i with
    | .error _ => 0
    | .ok _ => actingCount env fuel (i + 1) + 1

/-! Concrete fixtures used by the claim theorems and witnesses. -/

/-- A discovery response with one button element (screen 1000x1000 makes
the conversion the identity). -/
def discGo : PyStr :=
  "\x7b\"elements\": [\x7b\"label\": \"Go\", \"type\": \"button\", \"box_2d\": [100, 200, 300, 400]\x7d]\x7d".toList

/-- The parsed and processed form of `discGo` at screen (1000, 1000). -/
def elemsGo : Json :=
  Json.arr [Json.obj [
    ("label".toList, Json.str "Go".toList),
    ("type".toList, Json.str "button".toList),
    ("box_2d".toList, Json.arr [Json.num 100, Json.num 200, Json.num 300, Json.num 400]),
    ("pixel_box".toList, Json.arr [Json.num 100, Json.num 200, Json.num 300, Json.num 400])]]

/-- A decision response choosing the label "Go". -/
def decGo : PyStr :=
  "\x7b\"thought\": \"step\", \"chosen_element_label\": \"Go\"\x7d".toList

/-- The empty-object decision response: the model's signal that the
objective has been met. -/
def decEmpty : PyStr := "\x7b\x7d".toList

/-- A decision response that is not JSON at all (decode failure). -/
def decBad : PyStr := "this is not json".toList

/-- A decision response choosing a label absent from the candidates. -/
def decMissing : PyStr :=
  "\x7b\"thought\": \"x\", \"chosen_element_label\": \"Missing\"\x7d".toList

/-- An environment whose decision step always resolves to the "Go"
element: never "achieved", never failing. -/
def envActing : Env :=
  { imageOk := fun _ => true, discover := fun _ => some discGo,
    decision := fun _ => some decGo, screenW := 1000, screenH := 1000 }

/-- An environment whose decision step always signals "achieved". -/
def envAchieved : Env :=
  { envActing with decision := fun _ => some decEmpty }

/-- An environment whose decision step always fails to decode. -/
def envNoParse : Env :=
  { envActing with decision := fun _ => some decBad }

/-- An environment whose decision step names an out-of-list label. -/
def envMissing : Env :=
  { envActing with decision := fun _ => some decMissing }

/-- The user objective used in the concrete runs. -/
def goalText : PyStr := "find the form".toList

/-- The discovery response of the repository's own parser test:
one element with box_2d [100, 200, 300, 400]. -/
def testRespText : PyStr :=
  "\x7b\"elements\": [\x7b\"label\": \"Go to Form\", \"type\": \"link\", \"box_2d\": [100, 200, 300, 400]\x7d]\x7d".toList

/-- A structurally valid JSON document whose element record is a bare
number: `element.get` raises an uncaught `AttributeError`. -/
def ceBadRecord : PyStr := "\x7b\"elements\": [3]\x7d".toList

/-- A discovery response with a negative normalized coordinate. -/
def ceNegBox : PyStr :=
  "\x7b\"elements\": [\x7b\"label\": \"x\", \"type\": \"button\", \"box_2d\": [-500, 0, 100, 100]\x7d]\x7d".toList

/-- Raw (unprocessed) form of the `discGo` element record. -/
def goRawKvs : List (PyStr × Json) :=
  [("label".toList, Json.str "Go".toList),
   ("type".toList, Json.str "button".toList),
   ("box_2d".toList, Json.arr [Json.num 100, Json.num 200, Json.num 300, Json.num 400])]

/-- Processed form of the `discGo` element record (pixel_box added). -/
def goKvs : List (PyStr × Json) :=
  goRawKvs ++ [("pixel_box".toList, Json.arr [Json.num 100, Json.num 200, Json.num 300, Json.num 400])]

set_option maxRecDepth 4000

/-! Helper lemmas about the string model. -/

/-- Trailing non-whitespace is kept by `rstrip`. -/
theorem rstrip_append_not_space (l : PyStr) (c : Char) (hc : isPySpace c = false) :
    rstrip (l ++ [c]) = l ++ [c] := by
  induction l with
  | nil => simp [rstrip, hc]
  | cons a l ih =>
    rw [List.cons_append]
    simp only [rstrip, ih]
    cases l <;> simp

/-- A trailing whitespace character is removed by `rstrip`. -/
theorem rstrip_append_space (l : PyStr) (c : Char) (hc : isPySpace c = true) :
    rstrip (l ++ [c]) = rstrip l := by
  induction l with
  | nil => simp [rstrip, hc]
  | cons a l ih =>
    rw [List.cons_append]
    simp only [rstrip, ih]

/-- A list fixed by `dropWhile isPySpace` has a non-space head. -/
theorem head_not_space (c : Char) (cs : PyStr)
    (h : List.dropWhile isPySpace (c :: cs) = c :: cs) : isPySpace c = false := by
  by_contra hc
  rw [Bool.not_eq_false] at hc
  rw [List.dropWhile_cons, if_pos hc] at h
  have hs := (List.dropWhile_sublist (p := isPySpace) (l := cs)).length_le
  rw [h] at hs
  simp at hs

/-- Stripping the inner newline padding recovers a clean text. -/
theorem pyStrip_newline_pad (t : PyStr)
    (h1 : List.dropWhile isPySpace t = t) (h2 : rstrip t = t) :
    pyStrip ('\n' :: (t ++ ['\n'])) = t := by
  cases t with
  | nil => rfl
  | cons c cs =>
    have hc : isPySpace c = false := head_not_space c cs h1
    unfold pyStrip
    rw [List.dropWhile_cons, if_pos (show isPySpace '\n' = true from rfl),
      List.cons_append, List.dropWhile_cons, if_neg (by simp [hc])]
    rw [show (c :: (cs ++ ['\n'])) = (c :: cs) ++ ['\n'] from rfl,
      rstrip_append_space _ _ (show isPySpace '\n' = true from rfl), h2]

/-- A clean (unpadded, unfenced) text passes `stripFence` unchanged. -/
theorem stripFence_clean (t : PyStr)
    (h1 : List.dropWhile isPySpace t = t) (h2 : rstrip t = t)
    (h3 : isFenced t = false) : stripFence t = t := by
  unfold stripFence
  rw [show pyStrip t = t from by rw [pyStrip, h1, h2], h3]
  simp

/-- `stripFence` on the fence-wrapped text recovers the clean text. -/
theorem stripFence_fenceWrap (t : PyStr)
    (h1 : List.dropWhile isPySpace t = t) (h2 : rstrip t = t) :
    stripFence (fenceWrap t) = t := by
  have hstrip : pyStrip (fenceWrap t) = fenceWrap t := by
    unfold pyStrip
    rw [show fenceWrap t =
        Char.ofNat 96 :: ("``json\n".toList ++ t ++ "\n```".toList) from rfl]
    rw [List.dropWhile_cons, if_neg (by simp [show isPySpace (Char.ofNat 96) = false from rfl])]
    rw [show Char.ofNat 96 :: ("``json\n".toList ++ t ++ "\n```".toList) =
        ("```json\n".toList ++ t ++ "\n``".toList) ++ [Char.ofNat 96] from by simp,
      rstrip_append_not_space _ _ (show isPySpace (Char.ofNat 96) = false from rfl)]
  have hfen : isFenced (fenceWrap t) = true := by
    unfold isFenced fenceChars fenceWrap
    rw [List.isPrefixOf_iff_prefix,
      show "```json\n".toList ++ t ++ "\n```".toList =
        "```json".toList ++ ('\n' :: t ++ "\n```".toList) from by simp]
    exact List.prefix_append _ _
  have hlen : (fenceWrap t).length = t.length + 12 := by
    simp [fenceWrap]
  unfold stripFence
  rw [hstrip, hfen]
  simp only [if_true]
  rw [show (fenceWrap t).drop 7 = '\n' :: (t ++ "\n```".toList) from rfl, hlen,
    show t.length + 12 - 10 = (t.length + 1) + 1 from by omega,
    List.take_succ_cons, List.take_append_eq_append_take,
    List.take_of_length_le (by omega),
    show t.length + 1 - t.length = 1 from by omega,
    show List.take 1 "\n```".toList = ['\n'] from rfl]
  exact pyStrip_newline_pad t h1 h2

/-! Helper lemmas about the coordinate conversion. -/

/-- The conversion of a non-negative coordinate with a non-negative
dimension is non-negative (under the exact-arithmetic idealisation). -/
theorem pixelOf_nonneg {n w : Int} (hn : 0 ≤ n) (hw : 0 ≤ w) :
    0 ≤ pixelOf n w := Int.tdiv_nonneg (mul_nonneg hn hw) (by norm_num)

/-- The conversion is monotone in the coordinate on non-negative inputs. -/
theorem pixelOf_mono {a b w : Int} (ha : 0 ≤ a) (hab : a ≤ b) (hw : 0 ≤ w) :
    pixelOf a w ≤ pixelOf b w := by
  unfold pixelOf
  rw [Int.tdiv_eq_ediv (mul_nonneg ha hw) (by norm_num),
    Int.tdiv_eq_ediv (mul_nonneg (le_trans ha hab) hw) (by norm_num)]
  exact Int.ediv_le_ediv (by norm_num) (mul_le_mul_of_nonneg_right hab hw)

/-! Helper definitions and lemmas about the loop. -/

/-- The loop appends exactly one history entry per `Acting` iteration. -/
theorem runFrom_length (env : Env) :
    ∀ (fuel i : Nat) (h : List PyStr),
    ((runFrom env fuel i h).2).length = h.length + actingCount env fuel i := by
  intro fuel
  induction fuel with
  | zero => intro i h; simp [runFrom, actingCount]
  | succ fuel ih =>
    intro i h
    rw [runFrom, actingCount]
    cases hs : stepRes env i with
    | error o => simp
    | ok e => simp [ih (i + 1) (h ++ [e])]; omega

/-- The loop never mutates or reorders the history it was given: the
initial history is a prefix of the final one. -/
theorem runFrom_prefix (env : Env) :
    ∀ (fuel i : Nat) (h : List PyStr),
    List.IsPrefix h ((runFrom env fuel i h).2) := by
  intro fuel
  induction fuel with
  | zero => intro i h; simp [runFrom]
  | succ fuel ih =>
    intro i h
    rw [runFrom]
    cases hs : stepRes env i with
    | error o => simp
    | ok e =>
      exact List.IsPrefix.trans ⟨[e], rfl⟩ (ih (i + 1) (h ++ [e]))



/-- C1 counterexample: the structurally valid document with a bare-number
element record makes `parse_and_process_response` raise an uncaught
`AttributeError` instead of returning an empty sequence. -/
theorem C1_counterexample :
    parse_and_process_response ceBadRecord (100, 100) = .error .attributeError ∧
    (Except.error PyError.attributeError : Except PyError Json) ≠ .ok (Json.arr []) :=
  ⟨rfl, fun h => Except.noConfusion h⟩

/-- C1 (amended): the parser returns the empty sequence, raising nothing,
whenever the text fails to decode as JSON or decodes to a mapping without
an "elements" key; records of unexpected shape instead raise (see the
counterexample). -/
theorem C1_empty_on_decode_failure :
    (∀ (t : PyStr) (sz : Int × Int), jsonLoads (stripFence t) = none →
      parse_and_process_response t sz = .ok (Json.arr [])) ∧
    (∀ (t : PyStr) (sz : Int × Int) (kvs : List (PyStr × Json)),
      jsonLoads (stripFence t) = some (Json.obj kvs) →
      dictGetOpt kvs keyElements = none →
      parse_and_process_response t sz = .ok (Json.arr [])) := by
  constructor
  · intro t sz h
    unfold parse_and_process_response
    rw [h]
  · intro t sz kvs h hk
    unfold parse_and_process_response
    rw [h]
    simp [hk]
    rfl

/-- C1 witness: both amended branches at concrete inputs. -/
theorem C1_empty_on_decode_failure_witness :
    parse_and_process_response "not json".toList (100, 100) = .ok (Json.arr []) ∧
    parse_and_process_response "\x7b\"other\": 1\x7d".toList (100, 100) = .ok (Json.arr []) :=
  ⟨C1_empty_on_decode_failure.1 "not json".toList (100, 100) rfl,
   C1_empty_on_decode_failure.2 "\x7b\"other\": 1\x7d".toList (100, 100)
     [("other".toList, Json.num 1)] rfl rfl⟩

/-- C2 counterexample: a negative model-supplied coordinate passes through
unclamped, producing a pixelBox with a negative coordinate. -/
theorem C2_counterexample :
    parse_and_process_response ceNegBox (1000, 1000) =
      .ok (Json.arr [Json.obj [
        ("label".toList, Json.str "x".toList),
        ("type".toList, Json.str "button".toList),
        ("box_2d".toList, Json.arr [Json.num (-500), Json.num 0, Json.num 100, Json.num 100]),
        ("pixel_box".toList, Json.arr [Json.num (-500), Json.num 0, Json.num 100, Json.num 100])]]) ∧
    ¬ (0 ≤ (-500 : Int)) :=
  ⟨rfl, by decide⟩

/-- C2 (amended): no clamping is performed; the pixelBox invariant
(non-negative, ordered coordinates) holds exactly when the untrusted
normalizedBox itself is non-negative and ordered (given non-negative
screen dimensions). -/
theorem C2_pixel_box_invariant :
    ∀ (w h x1 y1 x2 y2 : Int) (kvs : List (PyStr × Json)),
    dictGetOpt kvs keyBox = some (Json.arr [.num x1, .num y1, .num x2, .num y2]) →
    0 ≤ x1 → x1 ≤ x2 → 0 ≤ y1 → y1 ≤ y2 → 0 ≤ w → 0 ≤ h →
    processElement w h (Json.obj kvs) =
      .ok (Json.obj (dictSet kvs keyPixel (Json.arr
        [.num (pixelOf x1 w), .num (pixelOf y1 h),
         .num (pixelOf x2 w), .num (pixelOf y2 h)]))) ∧
    0 ≤ pixelOf x1 w ∧ 0 ≤ pixelOf y1 h ∧
    0 ≤ pixelOf x2 w ∧ 0 ≤ pixelOf y2 h ∧
    pixelOf x1 w ≤ pixelOf x2 w ∧ pixelOf y1 h ≤ pixelOf y2 h := by
  intro w h x1 y1 x2 y2 kvs hbox hx1 hx12 hy1 hy12 hw hh
  refine ⟨?_, pixelOf_nonneg hx1 hw, pixelOf_nonneg hy1 hh,
    pixelOf_nonneg (le_trans hx1 hx12) hw, pixelOf_nonneg (le_trans hy1 hy12) hh,
    pixelOf_mono hx1 hx12 hw, pixelOf_mono hy1 hy12 hh⟩
  simp [processElement, hbox, pyTruthy, pyLen, asNum]

/-- C2 witness: the amended invariant at a concrete well-formed box. -/
theorem C2_pixel_box_invariant_witness :
    processElement 2000 1000 (Json.obj [("box_2d".toList,
        Json.arr [.num 100, .num 200, .num 300, .num 400])]) =
      .ok (Json.obj (dictSet [("box_2d".toList,
        Json.arr [.num 100, .num 200, .num 300, .num 400])] keyPixel (Json.arr
        [.num (pixelOf 100 2000), .num (pixelOf 200 1000),
         .num (pixelOf 300 2000), .num (pixelOf 400 1000)]))) ∧
    0 ≤ pixelOf 100 2000 ∧ 0 ≤ pixelOf 200 1000 ∧
    0 ≤ pixelOf 300 2000 ∧ 0 ≤ pixelOf 400 1000 ∧
    pixelOf 100 2000 ≤ pixelOf 300 2000 ∧ pixelOf 200 1000 ≤ pixelOf 400 1000 :=
  C2_pixel_box_invariant 2000 1000 100 200 300 400
    [("box_2d".toList, Json.arr [.num 100, .num 200, .num 300, .num 400])]
    rfl (by decide) (by decide) (by decide) (by decide) (by decide) (by decide)

/-- C3: the "achieved" signal and the decode-failure signal are produced
as distinct values by `decide_next_action`, but `run` sends both through
the same `if chosen_element:` else-branch: the two runs end in the very
same terminal state with the same history, conflating `Done` with
`Aborted`. -/
theorem C3_conflated_terminal :
    decide_next_action (some decEmpty) elemsGo = .ok (none, some achievedMsg) ∧
    decide_next_action (some decBad) elemsGo = .ok (none, none) ∧
    run envAchieved 10 goalText = (RunOutcome.noDecision, [objectiveEntry goalText]) ∧
    run envNoParse 10 goalText = (RunOutcome.noDecision, [objectiveEntry goalText]) :=
  ⟨rfl, rfl, rfl, rfl⟩

/-- C4 counterexample: the source computes `int((n / 1000) * dim)` in
IEEE-754 double arithmetic; at n = 9, dim = 3000 this yields 26, one
below the exact floor(9 * 3000 / 1000) = 27 that the claim asserts. -/
theorem C4_counterexample :
    pixelFloat 9 3000 = 26 ∧ (9 * 3000) / 1000 = 27 ∧
    pixelFloat 9 3000 ≠ (9 * 3000) / 1000 := by
  refine ⟨by decide, by decide, by decide⟩

/-- C4 (amended): the conversion is the double-precision evaluation of
`int((n / 1000) * dim)`; it agrees with exact floor semantics at the
spec's instance — normalizedBox [100,200,300,400] with screen (2000,1000)
yields pixelBox [200,200,600,400], both bit-accurately and in the parsed
output — but not universally (9 with dimension 3000 yields 26, not 27). -/
theorem C4_conversion_instances :
    pixelFloat 100 2000 = 200 ∧ pixelFloat 200 1000 = 200 ∧
    pixelFloat 300 2000 = 600 ∧ pixelFloat 400 1000 = 400 ∧
    parse_and_process_response testRespText (2000, 1000) =
      .ok (Json.arr [Json.obj [
        ("label".toList, Json.str "Go to Form".toList),
        ("type".toList, Json.str "link".toList),
        ("box_2d".toList, Json.arr [Json.num 100, Json.num 200, Json.num 300, Json.num 400]),
        ("pixel_box".toList, Json.arr [Json.num 200, Json.num 200, Json.num 600, Json.num 400])]]) ∧
    pixelFloat 9 3000 = 26 :=
  ⟨by decide, by decide, by decide, by decide, rfl, by decide⟩

/-- C9: every falsy decoded decision value — empty mapping, JSON null,
0, the empty string, the empty list (and false) — is treated as the
"objective achieved" terminal signal, for any candidate collection. -/
theorem C9_falsy_achieved :
    ∀ elems : Json,
    decide_next_action (some "\x7b\x7d".toList) elems = .ok (none, some achievedMsg) ∧
    decide_next_action (some "null".toList) elems = .ok (none, some achievedMsg) ∧
    decide_next_action (some "0".toList) elems = .ok (none, some achievedMsg) ∧
    decide_next_action (some "\"\"".toList) elems = .ok (none, some achievedMsg) ∧
    decide_next_action (some "[]".toList) elems = .ok (none, some achievedMsg) ∧
    decide_next_action (some "false".toList) elems = .ok (none, some achievedMsg) := by
  intro elems
  exact ⟨rfl, rfl, rfl, rfl, rfl, rfl⟩

/-- C5: decision resolution — an empty decoded mapping yields
(absent, "Objective achieved."); a missing or failing decode yields
(absent, absent); the two are distinguishable; a decoded label matching
no candidate yields (absent, "Could not find the chosen element."); and
lookup returns the first match in candidate-list order. -/
theorem C5_decision_resolution :
    (∀ (t : PyStr) (elems : Json), jsonLoads (stripFence t) = some (Json.obj []) →
      decide_next_action (some t) elems = .ok (none, some achievedMsg)) ∧
    (∀ elems : Json, decide_next_action none elems = .ok (none, none)) ∧
    (∀ (t : PyStr) (elems : Json), jsonLoads (stripFence t) = none →
      decide_next_action (some t) elems = .ok (none, none)) ∧
    ((none, some achievedMsg) ≠ ((none, none) : Option Json × Option Json)) ∧
    (∀ (t : PyStr) (elems : Json) (els : List Json) (kvs : List (PyStr × Json)),
      jsonLoads (stripFence t) = some (Json.obj kvs) →
      pyTruthy (Json.obj kvs) = true →
      pyIter elems = some els →
      findChosenList els (dictGetOpt kvs keyChosen) = .ok none →
      decide_next_action (some t) elems = .ok (none, some notFoundMsg)) ∧
    (∀ (pre post : List Json) (el : Json) (c : Option Json)
        (kvsEl : List (PyStr × Json)),
      (∀ x ∈ pre, ∃ kvs, x = Json.obj kvs ∧ pyEqOpt (dictGetOpt kvs keyLabel) c = false) →
      el = Json.obj kvsEl → pyEqOpt (dictGetOpt kvsEl keyLabel) c = true →
      findChosenList (pre ++ el :: post) c = .ok (some el)) := by
  refine ⟨?_, ?_, ?_, ?_, ?_, ?_⟩
  · intro t elems h
    cases t with
    | nil =>
      rw [show jsonLoads (stripFence ([] : PyStr)) = none from rfl] at h
      exact Option.noConfusion h
    | cons c cs =>
      simp [decide_next_action, h, pyTruthy]
  · intro elems; rfl
  · intro t elems h
    cases t with
    | nil => rfl
    | cons c cs =>
      simp [decide_next_action, h]
  · simp
  · intro t elems els kvs h htr hit hfind
    cases t with
    | nil =>
      rw [show jsonLoads (stripFence ([] : PyStr)) = none from rfl] at h
      exact Option.noConfusion h
    | cons c cs =>
      simp [decide_next_action, h, htr, hit, hfind]
  · intro pre post el c kvsEl hpre hel hmatch
    induction pre with
    | nil =>
      subst hel
      simp [findChosenList, hmatch]
    | cons x pre ih =>
      obtain ⟨kvsx, rfl, hfalse⟩ := hpre x (List.mem_cons_self x pre)
      rw [List.cons_append]
      simp [findChosenList, hfalse]
      exact ih (fun y hy => hpre y (List.mem_cons_of_mem _ hy))

/-- C6: with an iteration budget of 3 and an environment whose decision
step always resolves to an element (never "achieved", never failing),
the loop performs exactly 3 acting cycles — the final history is the
objective plus exactly three entries — and ends in the non-error
`maxIterations` (budget exhausted) state, distinct from every abort. -/
theorem C6_budget_exhausted :
    ∀ (env : Env) (p : PyStr),
    (∀ i, i < 3 → ∃ e, stepRes env i = Except.ok e) →
    (∃ e0 e1 e2, run env 3 p =
      (RunOutcome.maxIterations, [objectiveEntry p, e0, e1, e2])) ∧
    RunOutcome.maxIterations ≠ RunOutcome.noDecision ∧
    RunOutcome.maxIterations ≠ RunOutcome.noResponse ∧
    RunOutcome.maxIterations ≠ RunOutcome.noElements ∧
    RunOutcome.maxIterations ≠ RunOutcome.screenshotFailure ∧
    ∀ e : PyError, RunOutcome.maxIterations ≠ RunOutcome.uncaught e := by
  intro env p hstep
  obtain ⟨e0, h0⟩ := hstep 0 (by omega)
  obtain ⟨e1, h1⟩ := hstep 1 (by omega)
  obtain ⟨e2, h2⟩ := hstep 2 (by omega)
  refine ⟨⟨e0, e1, e2, ?_⟩, by decide, by decide, by decide, by decide,
    fun e h => RunOutcome.noConfusion h⟩
  simp [run, runFrom, h0, h1, h2]

/-- C6 witness: the concrete always-acting environment. -/
theorem C6_budget_exhausted_witness :
    (∃ e0 e1 e2, run envActing 3 goalText =
      (RunOutcome.maxIterations, [objectiveEntry goalText, e0, e1, e2])) ∧
    RunOutcome.maxIterations ≠ RunOutcome.noDecision ∧
    RunOutcome.maxIterations ≠ RunOutcome.noResponse ∧
    RunOutcome.maxIterations ≠ RunOutcome.noElements ∧
    RunOutcome.maxIterations ≠ RunOutcome.screenshotFailure ∧
    ∀ e : PyError, RunOutcome.maxIterations ≠ RunOutcome.uncaught e :=
  C6_budget_exhausted envActing goalText
    (by intro i hi; interval_cases i <;> exact ⟨_, rfl⟩)

/-- C7: wrapping a clean (no surrounding whitespace, not itself starting
with a fence) response in the recognised code fence parses to exactly
the same result as the unwrapped text, for every screen size. -/
theorem C7_fence_transparent :
    ∀ (t : PyStr) (sz : Int × Int),
    List.dropWhile isPySpace t = t → rstrip t = t → isFenced t = false →
    parse_and_process_response (fenceWrap t) sz = parse_and_process_response t sz := by
  intro t sz h1 h2 h3
  unfold parse_and_process_response
  rw [stripFence_fenceWrap t h1 h2, stripFence_clean t h1 h2 h3]

/-- C7 witness: the concrete discovery response. -/
theorem C7_fence_transparent_witness :
    parse_and_process_response (fenceWrap discGo) (1000, 1000) =
      parse_and_process_response discGo (1000, 1000) :=
  C7_fence_transparent discGo (1000, 1000) rfl rfl rfl

/-- Shape of a processed element: either unchanged, or the same dict with
the `pixel_box` key set. -/
theorem processElement_shape (w h : Int) (el el' : Json)
    (hok : processElement w h el = .ok el') :
    el' = el ∨ ∃ kvs v, el = Json.obj kvs ∧ el' = Json.obj (dictSet kvs keyPixel v) := by
  cases el with
  | obj kvs =>
    simp only [processElement] at hok
    split at hok
    · exact Or.inl (by injection hok with h'; exact h'.symm)
    · split at hok
      · split at hok
        · exact absurd hok (by simp)
        · split at hok
          · split at hok
            · split at hok
              · injection hok with h'
                exact Or.inr ⟨kvs, _, rfl, h'.symm⟩
              · exact absurd hok (by simp)
            · exact absurd hok (by simp)
          · exact Or.inl (by injection hok with h'; exact h'.symm)
      · exact Or.inl (by injection hok with h'; exact h'.symm)
  | null => exact absurd hok (by simp [processElement])
  | bool b => exact absurd hok (by simp [processElement])
  | num n => exact absurd hok (by simp [processElement])
  | str s => exact absurd hok (by simp [processElement])
  | arr l => exact absurd hok (by simp [processElement])

/-- C10: a successfully processed element list preserves count and order,
each output record is its input record possibly extended at the
`pixel_box` key, setting `pixel_box` changes no other field, and on a
successfully decoded document the parser is exactly this processing of
the `elements` list. -/
theorem C10_elements_passthrough :
    (∀ (w h : Int) (els outs : List Json), processElements w h els = .ok outs →
      outs.length = els.length ∧
      ∀ (i : Nat) (hi : i < els.length) (ho : i < outs.length),
        outs.get ⟨i, ho⟩ = els.get ⟨i, hi⟩ ∨
        ∃ kvs v, els.get ⟨i, hi⟩ = Json.obj kvs ∧
          outs.get ⟨i, ho⟩ = Json.obj (dictSet kvs keyPixel v)) ∧
    (∀ (kvs : List (PyStr × Json)) (k : PyStr) (v : Json), k ≠ keyPixel →
      dictGetOpt (dictSet kvs keyPixel v) k = dictGetOpt kvs k) ∧
    (∀ (t : PyStr) (sz : Int × Int) (kvs : List (PyStr × Json)) (els : List Json),
      jsonLoads (stripFence t) = some (Json.obj kvs) →
      dictGetOpt kvs keyElements = some (Json.arr els) →
      parse_and_process_response t sz = (processElements sz.1 sz.2 els).map Json.arr) := by
  refine ⟨?_, ?_, ?_⟩
  · intro w h els
    induction els with
    | nil =>
      intro outs hok
      simp only [processElements] at hok
      injection hok with h'
      subst h'
      exact ⟨rfl, fun i hi => absurd hi (by simp)⟩
    | cons el rest ih =>
      intro outs hok
      simp only [processElements] at hok
      split at hok
      · exact absurd hok (by simp)
      · split at hok
        · exact absurd hok (by simp)
        · rename_i el' hel _ rest' hrest
          injection hok with h'
          subst h'
          obtain ⟨hlen, hpt⟩ := ih rest' hrest
          refine ⟨by simp [hlen], ?_⟩
          intro i hi ho
          match i with
          | 0 =>
            exact processElement_shape w h el el' hel
          | Nat.succ n =>
            exact hpt n (by simp only [List.length_cons] at hi; omega)
              (by simp only [List.length_cons] at ho; omega)
  · intro kvs k v hne
    induction kvs with
    | nil => simp [dictSet, dictGetOpt, hne.symm]
    | cons p rest ih =>
      obtain ⟨k', v'⟩ := p
      by_cases hk' : k' = keyPixel
      · subst hk'
        simp [dictSet, dictGetOpt, hne.symm]
      · simp [dictSet, dictGetOpt, hk', ih]
  · intro t sz kvs els h hk
    unfold parse_and_process_response
    rw [h]
    simp only [hk]
    cases hpe : processElements sz.1 sz.2 els with
    | error e => simp [hpe, Except.map]
    | ok l => simp [hpe, Except.map]


/-- C10 witness. -/
theorem C10_elements_passthrough_witness :
    ([Json.obj goKvs] : List Json).length = ([Json.obj goRawKvs] : List Json).length ∧
    dictGetOpt (dictSet goRawKvs keyPixel Json.null) "label".toList =
      dictGetOpt goRawKvs "label".toList ∧
    parse_and_process_response discGo (1000, 1000) =
      (processElements 1000 1000 [Json.obj goRawKvs]).map Json.arr :=
  ⟨(C10_elements_passthrough.1 1000 1000 [Json.obj goRawKvs] [Json.obj goKvs] rfl).1,
   C10_elements_passthrough.2.1 goRawKvs "label".toList Json.null (by decide),
   C10_elements_passthrough.2.2 discGo (1000, 1000)
     [("elements".toList, Json.arr [Json.obj goRawKvs])] [Json.obj goRawKvs] rfl rfl⟩

/-- C5 witness: each branch of decision resolution at concrete inputs. -/
theorem C5_decision_resolution_witness :
    decide_next_action (some decEmpty) elemsGo = .ok (none, some achievedMsg) ∧
    decide_next_action none elemsGo = .ok (none, none) ∧
    decide_next_action (some decBad) elemsGo = .ok (none, none) ∧
    decide_next_action (some decMissing) elemsGo = .ok (none, some notFoundMsg) ∧
    findChosenList
      [Json.obj [("label".toList, Json.str "A".toList)], Json.obj goKvs, Json.obj goKvs]
      (some (Json.str "Go".toList)) = .ok (some (Json.obj goKvs)) :=
  ⟨C5_decision_resolution.1 decEmpty elemsGo rfl,
   C5_decision_resolution.2.1 elemsGo,
   C5_decision_resolution.2.2.1 decBad elemsGo rfl,
   C5_decision_resolution.2.2.2.2.1 decMissing elemsGo [Json.obj goKvs]
     [("thought".toList, Json.str "x".toList),
      ("chosen_element_label".toList, Json.str "Missing".toList)] rfl rfl rfl rfl,
   C5_decision_resolution.2.2.2.2.2
     [Json.obj [("label".toList, Json.str "A".toList)]] [Json.obj goKvs]
     (Json.obj goKvs) (some (Json.str "Go".toList)) goKvs
     (by
       intro x hx
       rw [List.mem_singleton] at hx
       subst hx
       exact ⟨[("label".toList, Json.str "A".toList)], rfl, rfl⟩)
     rfl rfl⟩

/-- C8: (i) the final history length is the initial length plus exactly
one entry per `Acting` iteration; (ii) the loop only appends — the
initial history is a prefix of the final history; (iii) entry 0 of the
final history is always the user's objective; (iv) an iteration whose
decision names an out-of-list label aborts the loop with `noDecision`
and leaves the history unchanged. -/
theorem C8_history_discipline :
    (∀ (env : Env) (fuel i : Nat) (h : List PyStr),
      ((runFrom env fuel i h).2).length = h.length + actingCount env fuel i) ∧
    (∀ (env : Env) (fuel i : Nat) (h : List PyStr),
      List.IsPrefix h ((runFrom env fuel i h).2)) ∧
    (∀ (env : Env) (n : Nat) (p : PyStr),
      ((run env n p).2).head? = some (objectiveEntry p)) ∧
    (∀ (env : Env) (i : Nat) (r : PyStr) (elems : Json) (fuel : Nat) (h : List PyStr),
      env.imageOk i = true → env.discover i = some r → r.isEmpty = false →
      parse_and_process_response r (env.screenW, env.screenH) = .ok elems →
      pyTruthy elems = true →
      decide_next_action (env.decision i) elems = .ok (none, some notFoundMsg) →
      stepRes env i = .error RunOutcome.noDecision ∧
      runFrom env (fuel + 1) i h = (RunOutcome.noDecision, h)) := by
  refine ⟨runFrom_length, runFrom_prefix, ?_, ?_⟩
  · intro env n p
    obtain ⟨rest, hrest⟩ := runFrom_prefix env n 0 [objectiveEntry p]
    rw [run, ← hrest]
    rfl
  · intro env i r elems fuel h him hdisc hne hparse htr hdec
    have hstep : stepRes env i = .error RunOutcome.noDecision := by
      simp [stepRes, him, hdisc, hne, hparse, htr, hdec]
    exact ⟨hstep, by simp [runFrom, hstep]⟩

/-- C8 witness. -/
theorem C8_history_discipline_witness :
    ((runFrom envActing 2 0 []).2).length = ([] : List PyStr).length + actingCount envActing 2 0 ∧
    List.IsPrefix [objectiveEntry goalText] ((runFrom envActing 2 0 [objectiveEntry goalText]).2) ∧
    ((run envActing 3 goalText).2).head? = some (objectiveEntry goalText) ∧
    (stepRes envMissing 0 = .error RunOutcome.noDecision ∧
      runFrom envMissing 1 0 [objectiveEntry goalText] =
        (RunOutcome.noDecision, [objectiveEntry goalText])) :=
  ⟨C8_history_discipline.1 envActing 2 0 [],
   C8_history_discipline.2.1 envActing 2 0 [objectiveEntry goalText],
   C8_history_discipline.2.2.1 envActing 3 goalText,
   C8_history_discipline.2.2.2 envMissing 0 discGo elemsGo 0 [objectiveEntry goalText]
     rfl rfl rfl rfl rfl rfl⟩
